import Mathlib

/-!
Verification of the quarterhorse-frontend session/token subsystem.

The navigation guard and the route table are embedded from the sources
(src/router/index.js, src/router/routes.js).  The session store, the
persistent store adapter and the HTTP interceptor pipeline are not part of
the source snapshot (only their unit tests are), so they are modelled from
the specification; each such definition carries a doc comment starting with
"Modelled from the spec:".  Asynchronous effects (refresh calls, forced
logout, redirects, delays) are made explicit outputs, and fallible
browser/storage primitives become `Except`/`Option` inputs.
-/

/-- A user profile record.  The session layer treats it as opaque beyond
these fields. -/
structure UserRec where
  id : Nat
  name : String
  email : String
  role : String
deriving Repr, DecidableEq

/-- Modelled from the spec: the state of the Session State Store
(src/stores/auth.js is missing from the snapshot; only its unit tests are
present).  Five optional fields; `accessTokenExpiry` is Unix seconds. -/
structure AuthSession where
  user : Option UserRec
  accessToken : Option String
  accessTokenExpiry : Option Int
  invitationToken : Option String
  oauthErrorMessage : Option String
deriving Repr, DecidableEq

/-- Modelled from the spec: the `isAuthenticated` getter of the session
store: token present AND expiry present AND expiry strictly greater than
the current time. -/
def isAuthenticated (now : Int) (s : AuthSession) : Bool :=
  s.accessToken.isSome &&
    match s.accessTokenExpiry with
    | some e => now < e
    | none => false

/-- Modelled from the spec: the `isTokenExpired` getter of the session
store: expiry absent, or expiry less than or equal to the current time. -/
def isTokenExpired (now : Int) (s : AuthSession) : Bool :=
  match s.accessTokenExpiry with
  | some e => e ≤ now
  | none => true

/-- Modelled from the spec: `checkAndRefreshToken()`.  Returns false
immediately when token or expiry is absent; when the remaining
time-to-expiry is under the 5-minute (300 s) threshold but still positive,
performs one `refreshToken()` call and returns its result; otherwise
returns true with no refresh.  The value a `refreshToken` call would
return is supplied as `refreshResult`; the second component counts the
`refreshToken` calls made. -/
def checkAndRefreshToken (now : Int) (s : AuthSession) (refreshResult : Bool) :
    Bool × Nat :=
  match s.accessToken, s.accessTokenExpiry with
  | some _, some e =>
      if 0 < e - now ∧ e - now < 300 then
        (refreshResult, 1)
      else
        (true, 0)
  | _, _ => (false, 0)

/-- Modelled from the spec: `clearAuthData()` nulls user, accessToken and
accessTokenExpiry (and removes their persisted keys); the invitation and
OAuth-error fields are untouched. -/
def clearAuthData (s : AuthSession) : AuthSession :=
  { s with user := none, accessToken := none, accessTokenExpiry := none }

/-- The body of a successful reply from the refresh endpoint. -/
structure RefreshReply where
  success : Bool
  accessToken : String
  accessTokenExpiry : Int
deriving Repr, DecidableEq

/-- The observable outcome of one `refreshToken()` call: the session
afterwards, the returned boolean, whether a forced logout happened, and
whether that logout showed a user-facing message. -/
structure RefreshOutcome where
  session : AuthSession
  returned : Bool
  forcedLogout : Bool
  showedNote : Bool
deriving Repr, DecidableEq

/-- Modelled from the spec: `refreshToken()`.  `reply = none` models a
thrown transport error; the function is total, so it never raises to its
caller.  On a successful reply only the token and expiry are overwritten;
on a declared-unsuccessful reply nothing changes; on a thrown error the
session is torn down (logout with no message) and false is returned. -/
def refreshToken (s : AuthSession) (reply : Option RefreshReply) :
    RefreshOutcome :=
  match reply with
  | some r =>
      if r.success then
        { session := { s with accessToken := some r.accessToken,
                              accessTokenExpiry := some r.accessTokenExpiry },
          returned := true, forcedLogout := false, showedNote := false }
      else
        { session := s, returned := false, forcedLogout := false,
          showedNote := false }
  | none =>
      { session := clearAuthData s, returned := false, forcedLogout := true,
        showedNote := false }

/-- A failed HTTP response as seen by the response interceptor: its status
and the parsed value of the retry-after header, in seconds. -/
structure FailedResponse where
  status : Nat
  retryAfter : Nat
deriving Repr, DecidableEq

/-- Per-request retry bookkeeping.  The spec gives each failure
classification its own budget: a has-been-retried flag for 401 and attempt
counters for 429 and 5xx. -/
structure RetryState where
  retried401 : Bool
  count429 : Nat
  count5xx : Nat
deriving Repr, DecidableEq

/-- What the interceptor finally does with the failed request. -/
inductive Disposition where
  | reissue (delaySeconds : Nat)
  | propagate
deriving Repr, DecidableEq

/-- The observable outcome of one pass of the response interceptor over a
failed response: refresh calls made, forced logout and its message flag,
redirect target, the disposition of the request, and the updated retry
bookkeeping. -/
structure InterceptOutcome where
  refreshCalls : Nat
  forcedLogout : Bool
  showedNote : Bool
  redirect : Option String
  disposition : Disposition
  state : RetryState
deriving Repr, DecidableEq

/-- The interceptor outcome that propagates the failure to the caller with
no side effects and no change to the retry bookkeeping. -/
def propagateUnchanged (st : RetryState) : InterceptOutcome :=
  { refreshCalls := 0, forcedLogout := false, showedNote := false,
    redirect := none, disposition := .propagate, state := st }

/-- Modelled from the spec: the failed-response handler of the HTTP client
interceptor pipeline (src/config/axios.js is missing from the snapshot;
only its unit tests are present).  401: when not yet retried for this
reason, invoke refresh once; on refresh success re-issue the request, on
refresh failure force logout with no message, redirect to /login and
propagate.  429: re-issue once after retry-after seconds, then propagate.
5xx: re-issue with delay 2 ^ attempt seconds for up to two attempts, then
propagate.  Anything else propagates untouched.  `refreshOk = none` models
a refresh call that threw. -/
def onResponseError (resp : FailedResponse) (st : RetryState)
    (refreshOk : Option Bool) : InterceptOutcome :=
  if resp.status = 401 then
    if st.retried401 then
      propagateUnchanged st
    else
      match refreshOk with
      | some true =>
          { refreshCalls := 1, forcedLogout := false, showedNote := false,
            redirect := none, disposition := .reissue 0,
            state := { st with retried401 := true } }
      | _ =>
          { refreshCalls := 1, forcedLogout := true, showedNote := false,
            redirect := some "/login", disposition := .propagate,
            state := { st with retried401 := true } }
  else if resp.status = 429 then
    if st.count429 < 1 then
      { refreshCalls := 0, forcedLogout := false, showedNote := false,
        redirect := none, disposition := .reissue resp.retryAfter,
        state := { st with count429 := st.count429 + 1 } }
    else
      propagateUnchanged st
  else if 500 ≤ resp.status ∧ resp.status ≤ 599 then
    if st.count5xx < 2 then
      { refreshCalls := 0, forcedLogout := false, showedNote := false,
        redirect := none, disposition := .reissue (2 ^ (st.count5xx + 1)),
        state := { st with count5xx := st.count5xx + 1 } }
    else
      propagateUnchanged st
  else
    propagateUnchanged st

mutual
/-- Modelled from the spec: a JavaScript value as handled by the Persistent
Store Adapter (src/services/localStorage.service.js is missing from the
snapshot; only its unit tests are present).  A string value carries the
`RawText` describing how the browser JSON parser sees it. -/
inductive JsVal : Type where
  | vNull : JsVal
  | vBool : Bool → JsVal
  | vNum : Int → JsVal
  | vStr : RawText → JsVal
  | vArr : List JsVal → JsVal
  | vObj : List (String × JsVal) → JsVal

/-- Modelled from the spec: a raw string held by the underlying browser
store, abstracted by what the (external, browser-provided) JSON parser
does with it: `jsonText v` is a string that parses to the value `v`;
`plain s` is a string on which parsing fails. -/
inductive RawText : Type where
  | jsonText : JsVal → RawText
  | plain : String → RawText
end

/-- The browser JSON parse, seen through the `RawText` abstraction. -/
def jsonParse : RawText → Option JsVal
  | .jsonText v => some v
  | .plain _ => none

/-- True when the value is a string. -/
def JsVal.isStr : JsVal → Bool
  | .vStr _ => true
  | _ => false

/-- True when the value is an object, array, boolean or number. -/
def JsVal.isStructured : JsVal → Bool
  | .vObj _ => true
  | .vArr _ => true
  | .vBool _ => true
  | .vNum _ => true
  | _ => false

/-- Modelled from the spec: the serialization step of `setItem`: a string
value is stored as-is, every other value is JSON-serialized first. -/
def serializeForStorage : JsVal → RawText
  | .vStr r => r
  | v => .jsonText v

/-- Modelled from the spec: `localStorageService.getItem`.  The result of
the underlying read is supplied as `readResult` (`Except` error = the read
threw).  Returns the value the call yields (none = null) together with a
flag recording whether an error was logged; the function is total, so the
call never raises. -/
def getItem (readResult : Except Unit (Option RawText)) :
    Option JsVal × Bool :=
  match readResult with
  | .error _ => (none, true)
  | .ok none => (none, false)
  | .ok (some raw) =>
      match jsonParse raw with
      | some v => (some v, false)
      | none => (some (.vStr raw), false)

/-- Modelled from the spec: `localStorageService.setItem`.  `writeFails`
states whether the underlying write throws.  Returns the raw text now
stored under the key (none = the write did not take effect) and a flag
recording whether an error was logged; the function is total, so the call
never raises and a failure is suppressed. -/
def setItem (v : JsVal) (writeFails : Bool) : Option RawText × Bool :=
  if writeFails then (none, true) else (some (serializeForStorage v), false)

/-- `listStartsWith cs ps` holds when `ps` is an initial run of `cs`;
character-level embedding of the JS `String.startsWith`. -/
def listStartsWith : List Char → List Char → Bool
  | _, [] => true
  | [], _ :: _ => false
  | c :: cs, p :: ps => c = p && listStartsWith cs ps

/-- Embedding of the JS `path.startsWith(pre)` on character lists. -/
def strStartsWith (s pre : String) : Bool :=
  listStartsWith s.toList pre.toList

/-- Splits a character list at every slash; embedding of the JS
`path.split` used to resolve route params. -/
def splitSlashAux : List Char → List Char → List String
  | [], cur => [String.mk cur.reverse]
  | c :: rest, cur =>
      if c = '/' then String.mk cur.reverse :: splitSlashAux rest []
      else splitSlashAux rest (c :: cur)

/-- The slash-separated segments of a path. -/
def pathSegs (s : String) : List String :=
  splitSlashAux s.toList []

/-- From src/router/index.js (`Router.beforeEach`): the anonymous-only
auth-page condition of the first redirect branch. -/
def isAnonAuthPath (path : String) : Bool :=
  path = "/login" || path = "/signup" || path = "/forgot-password" ||
    strStartsWith path "/set-password"

/-- From src/router/index.js (`Router.beforeEach`): the redirect decision
taken after authentication status is known.  `none` models a plain
`next()` call, so the navigation proceeds unmodified; `some p` models a
`next` call redirecting to path `p`. -/
def beforeEachDecision (isAuth : Bool) (path : String)
    (requiresAuth : Bool) : Option String :=
  if isAuth ∧ isAnonAuthPath path then
    some "/dashboard"
  else if requiresAuth ∧ ¬isAuth then
    some "/login"
  else if path = "/" ∧ isAuth then
    some "/dashboard"
  else if path = "/" ∧ ¬isAuth then
    some "/login"
  else
    none

/-- What the pre-navigation phase of the guard did: which store operations
were called, and the session whose authentication status the redirect
decision then reads. -/
structure GuardPrelude where
  initCalled : Bool
  refreshCalled : Bool
  session : AuthSession
deriving Repr, DecidableEq

/-- From src/router/index.js (`Router.beforeEach`), the phase before the
redirect decision: when no access token is present the store is hydrated
from storage (`initialize()`, whose effect is to load `stored`); then,
when a token is present and `isTokenExpired` holds, `checkAndRefreshToken`
runs and its session effect `refreshEffect` is awaited before the
authentication status is read. -/
def beforeEachPrelude (now : Int) (s stored : AuthSession)
    (refreshEffect : AuthSession → AuthSession) : GuardPrelude :=
  let s1 := if s.accessToken.isNone then stored else s
  if s1.accessToken.isSome ∧ isTokenExpired now s1 then
    { initCalled := s.accessToken.isNone, refreshCalled := true,
      session := refreshEffect s1 }
  else
    { initCalled := s.accessToken.isNone, refreshCalled := false,
      session := s1 }

/-- A declared route, reduced to what the guard reads: its `requiresAuth`
meta flag, absent on the catch-all route. -/
structure RouteEntry where
  requiresAuthMeta : Option Bool
deriving Repr, DecidableEq

/-- From src/router/routes.js: the declared (non-catch-all) route matching
a path, when one exists.  `/dashboard`, `/tasks` and `/profile` carry
`requiresAuth: true`; `/signup`, `/login`, `/forgot-password`,
`/auth/callback` and `/set-password/:token/:uidb64` carry
`requiresAuth: false`. -/
def declaredMatch (path : String) : Option RouteEntry :=
  if path = "/dashboard" ∨ path = "/tasks" ∨ path = "/profile" then
    some { requiresAuthMeta := some true }
  else if path = "/signup" ∨ path = "/login" ∨ path = "/forgot-password" ∨
      path = "/auth/callback" then
    some { requiresAuthMeta := some false }
  else if (match pathSegs path with
           | ["", "set-password", t, u] => !t.isEmpty && !u.isEmpty
           | _ => false) then
    some { requiresAuthMeta := some false }
  else
    none

/-- From src/router/routes.js: the trailing `/:catchAll(.*)*` route, which
declares no meta. -/
def catchAllEntry : RouteEntry := { requiresAuthMeta := none }

/-- From src/router/routes.js: the route a navigation resolves to — the
declared match when one exists, the catch-all otherwise. -/
def matchRoute (path : String) : RouteEntry :=
  (declaredMatch path).getD catchAllEntry

/-- From src/router/index.js: the `requiresAuth` value the guard reads via
`to.meta?.requiresAuth` — an absent meta is falsy. -/
def routeRequiresAuth (r : RouteEntry) : Bool :=
  r.requiresAuthMeta.getD false


/-- Claim C1: for every session state, `isAuthenticated` holds exactly when
the access token and expiry are both present and the expiry is strictly
greater than the current time (equality counts as expired), and
`isTokenExpired` holds exactly when the expiry is absent or at most the
current time — so it can hold even with no token at all. -/
theorem isAuthenticated_isTokenExpired_characterization
    (now : Int) (s : AuthSession) :
    (isAuthenticated now s = true ↔
      (∃ t, s.accessToken = some t) ∧
        ∃ e, s.accessTokenExpiry = some e ∧ now < e) ∧
    (isTokenExpired now s = true ↔
      s.accessTokenExpiry = none ∨
        ∃ e, s.accessTokenExpiry = some e ∧ e ≤ now) := by
  obtain ⟨u, tok, exp, inv, oer⟩ := s
  constructor
  · cases tok <;> cases exp <;>
      simp [isAuthenticated]
  · cases exp <;> simp [isTokenExpired]

/-- Claim C2: `checkAndRefreshToken` returns false with no refresh call
when token or expiry is absent; performs exactly one refresh and returns
its result when the expiry is under 300 seconds away but not yet passed;
and returns true with zero refresh calls when the expiry is at least 300
seconds away or already passed. -/
theorem checkAndRefreshToken_policy (now : Int) (s : AuthSession) (r : Bool) :
    ((s.accessToken = none ∨ s.accessTokenExpiry = none) →
        checkAndRefreshToken now s r = (false, 0)) ∧
    (∀ t e, s.accessToken = some t → s.accessTokenExpiry = some e →
        ((0 < e - now ∧ e - now < 300) →
            checkAndRefreshToken now s r = (r, 1)) ∧
        (300 ≤ e - now → checkAndRefreshToken now s r = (true, 0)) ∧
        (e - now ≤ 0 → checkAndRefreshToken now s r = (true, 0))) := by
  obtain ⟨u, tok, exp, inv, oer⟩ := s
  constructor
  · rintro (h | h)
    · subst h
      cases exp <;> simp [checkAndRefreshToken]
    · subst h
      cases tok <;> simp [checkAndRefreshToken]
  · rintro t e ht he
    subst ht; subst he
    refine ⟨fun hc => ?_, fun hc => ?_, fun hc => ?_⟩
    · simp only [checkAndRefreshToken]
      rw [if_pos hc]
    · simp only [checkAndRefreshToken]
      rw [if_neg (by omega)]
    · simp only [checkAndRefreshToken]
      rw [if_neg (by omega)]

/-- Witness for C2 at the concrete inputs of the spec examples: expiry
240 s ahead refreshes once, 600 s ahead and 100 s past do not, and a
missing expiry returns false. -/
theorem checkAndRefreshToken_policy_witness :
    checkAndRefreshToken 1000 ⟨none, some "tok", some 1240, none, none⟩ true
        = (true, 1) ∧
    checkAndRefreshToken 1000 ⟨none, some "tok", some 1600, none, none⟩ true
        = (true, 0) ∧
    checkAndRefreshToken 1000 ⟨none, some "tok", some 900, none, none⟩ true
        = (true, 0) ∧
    checkAndRefreshToken 1000 ⟨none, some "tok", none, none, none⟩ true
        = (false, 0) :=
  ⟨((checkAndRefreshToken_policy 1000
        ⟨none, some "tok", some 1240, none, none⟩ true).2 "tok" 1240
        rfl rfl).1 ⟨by decide, by decide⟩,
   ((checkAndRefreshToken_policy 1000
        ⟨none, some "tok", some 1600, none, none⟩ true).2 "tok" 1600
        rfl rfl).2.1 (by decide),
   ((checkAndRefreshToken_policy 1000
        ⟨none, some "tok", some 900, none, none⟩ true).2 "tok" 900
        rfl rfl).2.2 (by decide),
   (checkAndRefreshToken_policy 1000
        ⟨none, some "tok", none, none, none⟩ true).1 (Or.inr rfl)⟩

/-- Claim C3: `refreshToken` on a successful reply overwrites only the
token and expiry, leaves the user unchanged and returns true; on a
declared-unsuccessful reply it changes nothing and returns false; on a
thrown error it forces logout with no message and returns false (the
function is total, so it never raises to its caller). -/
theorem refreshToken_outcomes (s : AuthSession) (rep : RefreshReply) :
    (rep.success = true →
        refreshToken s (some rep) =
          { session := { s with accessToken := some rep.accessToken,
                                accessTokenExpiry := some rep.accessTokenExpiry },
            returned := true, forcedLogout := false, showedNote := false } ∧
        (refreshToken s (some rep)).session.user = s.user) ∧
    (rep.success = false →
        refreshToken s (some rep) =
          { session := s, returned := false, forcedLogout := false,
            showedNote := false }) ∧
    refreshToken s none =
      { session := clearAuthData s, returned := false, forcedLogout := true,
        showedNote := false } := by
  refine ⟨fun h => ⟨?_, ?_⟩, fun h => ?_, rfl⟩ <;>
    simp [refreshToken, h]

/-- Witness for C3 at a concrete session and reply: a successful refresh
rewrites the token fields and keeps the user. -/
theorem refreshToken_outcomes_witness :
    refreshToken
        ⟨some ⟨1, "Test User", "test@example.com", "user"⟩, some "old",
          some 50, none, none⟩
        (some ⟨true, "new", 500⟩) =
      { session := ⟨some ⟨1, "Test User", "test@example.com", "user"⟩,
          some "new", some 500, none, none⟩,
        returned := true, forcedLogout := false, showedNote := false } :=
  ((refreshToken_outcomes
      ⟨some ⟨1, "Test User", "test@example.com", "user"⟩, some "old",
        some 50, none, none⟩
      ⟨true, "new", 500⟩).1 rfl).1

/-- Claim C4: on a 401 not yet retried for that reason the interceptor
invokes refresh exactly once; if the refresh succeeds the original request
is re-issued (its result returned to the caller); if it fails the
interceptor forces logout with no user-facing message, redirects to
/login, and propagates the original failure.  A 401 already retried is
propagated with no further refresh. -/
theorem interceptor_401_policy (resp : FailedResponse) (st : RetryState)
    (refreshOk : Option Bool) :
    resp.status = 401 →
    (st.retried401 = false →
        (onResponseError resp st refreshOk).refreshCalls = 1 ∧
        (refreshOk = some true →
            onResponseError resp st refreshOk =
              { refreshCalls := 1, forcedLogout := false, showedNote := false,
                redirect := none, disposition := .reissue 0,
                state := { st with retried401 := true } }) ∧
        (refreshOk ≠ some true →
            onResponseError resp st refreshOk =
              { refreshCalls := 1, forcedLogout := true, showedNote := false,
                redirect := some "/login", disposition := .propagate,
                state := { st with retried401 := true } })) ∧
    (st.retried401 = true →
        onResponseError resp st refreshOk = propagateUnchanged st) := by
  intro h401
  constructor
  · intro hret
    refine ⟨?_, fun hok => ?_, fun hok => ?_⟩
    · rcases refreshOk with _ | b
      · simp [onResponseError, h401, hret]
      · cases b <;> simp [onResponseError, h401, hret]
    · subst hok
      simp [onResponseError, h401, hret]
    · rcases refreshOk with _ | b
      · simp [onResponseError, h401, hret]
      · cases b
        · simp [onResponseError, h401, hret]
        · exact absurd rfl hok
  · intro hret
    simp [onResponseError, h401, hret]

/-- Witness for C4 at concrete inputs: a first 401 with a successful
refresh re-issues the request after one refresh call. -/
theorem interceptor_401_policy_witness :
    onResponseError ⟨401, 0⟩ ⟨false, 0, 0⟩ (some true) =
      { refreshCalls := 1, forcedLogout := false, showedNote := false,
        redirect := none, disposition := .reissue 0,
        state := { retried401 := true, count429 := 0, count5xx := 0 } } :=
  ((interceptor_401_policy ⟨401, 0⟩ ⟨false, 0, 0⟩ (some true) rfl).1
      rfl).2.1 rfl

/-- Claim C5: a 429 is re-issued once after retry-after seconds and a
second 429 propagates; a 5xx is re-issued with delay 2 ^ attempt seconds
for at most two attempts and then propagates; any other failure status
propagates immediately; and handling one classification never touches the
retry bookkeeping of the others. -/
theorem interceptor_retry_policy (resp : FailedResponse) (st : RetryState)
    (refreshOk : Option Bool) :
    (resp.status = 429 → st.count429 = 0 →
        onResponseError resp st refreshOk =
          { refreshCalls := 0, forcedLogout := false, showedNote := false,
            redirect := none, disposition := .reissue resp.retryAfter,
            state := { st with count429 := 1 } }) ∧
    (resp.status = 429 → 1 ≤ st.count429 →
        onResponseError resp st refreshOk = propagateUnchanged st) ∧
    (500 ≤ resp.status → resp.status ≤ 599 → st.count5xx < 2 →
        onResponseError resp st refreshOk =
          { refreshCalls := 0, forcedLogout := false, showedNote := false,
            redirect := none,
            disposition := .reissue (2 ^ (st.count5xx + 1)),
            state := { st with count5xx := st.count5xx + 1 } }) ∧
    (500 ≤ resp.status → resp.status ≤ 599 → 2 ≤ st.count5xx →
        onResponseError resp st refreshOk = propagateUnchanged st) ∧
    (resp.status ≠ 401 → resp.status ≠ 429 →
        ¬(500 ≤ resp.status ∧ resp.status ≤ 599) →
        onResponseError resp st refreshOk = propagateUnchanged st) ∧
    (resp.status = 429 →
        (onResponseError resp st refreshOk).state.retried401 = st.retried401 ∧
        (onResponseError resp st refreshOk).state.count5xx = st.count5xx) ∧
    (500 ≤ resp.status → resp.status ≤ 599 →
        (onResponseError resp st refreshOk).state.retried401 = st.retried401 ∧
        (onResponseError resp st refreshOk).state.count429 = st.count429) ∧
    (resp.status = 401 →
        (onResponseError resp st refreshOk).state.count429 = st.count429 ∧
        (onResponseError resp st refreshOk).state.count5xx = st.count5xx) := by
  refine ⟨fun h9 h0 => ?_, fun h9 h1 => ?_, fun ha hb hc => ?_,
      fun ha hb hc => ?_, fun h1 h2 h3 => ?_, fun h9 => ?_,
      fun ha hb => ?_, fun h4 => ?_⟩
  · simp [onResponseError, h9, h0]
  · simp [onResponseError, h9, Nat.not_lt.mpr h1]
  · have hne1 : resp.status ≠ 401 := by omega
    have hne2 : resp.status ≠ 429 := by omega
    simp [onResponseError, hne1, hne2, ha, hb, hc]
  · have hne1 : resp.status ≠ 401 := by omega
    have hne2 : resp.status ≠ 429 := by omega
    simp [onResponseError, hne1, hne2, ha, hb, Nat.not_lt.mpr hc]
  · simp [onResponseError, h1, h2, h3]
  · rcases Nat.lt_or_ge st.count429 1 with hlt | hge
    · have h0 : st.count429 = 0 := by omega
      simp [onResponseError, h9, h0]
    · simp [onResponseError, h9, Nat.not_lt.mpr hge, propagateUnchanged]
  · have hne1 : resp.status ≠ 401 := by omega
    have hne2 : resp.status ≠ 429 := by omega
    rcases Nat.lt_or_ge st.count5xx 2 with hlt | hge
    · simp [onResponseError, hne1, hne2, ha, hb, hlt]
    · simp [onResponseError, hne1, hne2, ha, hb, Nat.not_lt.mpr hge,
        propagateUnchanged]
  · rcases hret : st.retried401 with _ | _
    · rcases refreshOk with _ | b
      · simp [onResponseError, h4, hret]
      · cases b <;> simp [onResponseError, h4, hret]
    · simp [onResponseError, h4, hret, propagateUnchanged]

/-- Witness for C5 at concrete inputs: a first 429 with retry-after 2 is
re-issued after 2 seconds, a second 429 propagates, a first 500 is
re-issued after 2 seconds, a third 500 propagates, and a 400 propagates
untouched. -/
theorem interceptor_retry_policy_witness :
    onResponseError ⟨429, 2⟩ ⟨false, 0, 0⟩ none =
      { refreshCalls := 0, forcedLogout := false, showedNote := false,
        redirect := none, disposition := .reissue 2,
        state := { retried401 := false, count429 := 1, count5xx := 0 } } ∧
    onResponseError ⟨429, 2⟩ ⟨false, 1, 0⟩ none =
      propagateUnchanged ⟨false, 1, 0⟩ ∧
    onResponseError ⟨500, 0⟩ ⟨false, 0, 0⟩ none =
      { refreshCalls := 0, forcedLogout := false, showedNote := false,
        redirect := none, disposition := .reissue 2,
        state := { retried401 := false, count429 := 0, count5xx := 1 } } ∧
    onResponseError ⟨500, 0⟩ ⟨false, 0, 2⟩ none =
      propagateUnchanged ⟨false, 0, 2⟩ ∧
    onResponseError ⟨400, 0⟩ ⟨false, 0, 0⟩ none =
      propagateUnchanged ⟨false, 0, 0⟩ :=
  ⟨(interceptor_retry_policy ⟨429, 2⟩ ⟨false, 0, 0⟩ none).1 rfl rfl,
   (interceptor_retry_policy ⟨429, 2⟩ ⟨false, 1, 0⟩ none).2.1 rfl
      (by decide),
   (interceptor_retry_policy ⟨500, 0⟩ ⟨false, 0, 0⟩ none).2.2.1
      (by decide) (by decide) (by decide),
   (interceptor_retry_policy ⟨500, 0⟩ ⟨false, 0, 2⟩ none).2.2.2.1
      (by decide) (by decide) (by decide),
   (interceptor_retry_policy ⟨400, 0⟩ ⟨false, 0, 0⟩ none).2.2.2.2.1
      (by decide) (by decide) (by decide)⟩

/-- Claim C6: the redirect decision of the navigation guard — an
authenticated user targeting /login, /signup, /forgot-password or a
/set-password path goes to /dashboard; a route with requiresAuth and an
unauthenticated user goes to /login; the root path goes to /dashboard
when authenticated and /login otherwise; every other navigation proceeds
unmodified. -/
theorem guard_redirect_decision (isAuth : Bool) (path : String)
    (req : Bool) :
    (isAuth = true → isAnonAuthPath path = true →
        beforeEachDecision isAuth path req = some "/dashboard") ∧
    (isAuth = false → req = true →
        beforeEachDecision isAuth path req = some "/login") ∧
    (path = "/" →
        beforeEachDecision isAuth path req =
          some (if isAuth then "/dashboard" else "/login")) ∧
    (¬(isAuth = true ∧ isAnonAuthPath path = true) →
        ¬(req = true ∧ isAuth = false) → path ≠ "/" →
        beforeEachDecision isAuth path req = none) := by
  refine ⟨fun h1 h2 => ?_, fun h1 h2 => ?_, fun h => ?_, fun h1 h2 h3 => ?_⟩
  · subst h1
    simp [beforeEachDecision, h2]
  · subst h1; subst h2
    simp [beforeEachDecision]
  · subst h
    cases isAuth <;> cases req <;> decide
  · cases isAuth
    · have hreq : req = false := by
        cases req
        · rfl
        · exact absurd ⟨rfl, rfl⟩ h2
      subst hreq
      simp [beforeEachDecision, h3]
    · have hanon : isAnonAuthPath path = false := by
        cases hp : isAnonAuthPath path
        · rfl
        · exact absurd ⟨rfl, hp⟩ h1
      simp [beforeEachDecision, hanon, h3]

/-- Witness for C6 at concrete inputs: an authenticated user at /login is
sent to /dashboard, an unauthenticated user at a protected route is sent
to /login, and a public route passes through. -/
theorem guard_redirect_decision_witness :
    beforeEachDecision true "/login" false = some "/dashboard" ∧
    beforeEachDecision false "/dashboard" true = some "/login" ∧
    beforeEachDecision false "/login" false = none :=
  ⟨(guard_redirect_decision true "/login" false).1 rfl (by decide),
   (guard_redirect_decision false "/dashboard" true).2.1 rfl rfl,
   (guard_redirect_decision false "/login" false).2.2.2
      (by simp) (by simp) (by decide)⟩

/-- Claim C7: before each navigation the guard hydrates the store exactly
when no access token is present; with a token present it runs
`checkAndRefreshToken` exactly when the token is expired (the store
predicate `isTokenExpired`), reading the authentication status from the
session that call produced; with a present, unexpired token it calls
neither. -/
theorem guard_prelude_calls (now : Int) (s stored : AuthSession)
    (eff : AuthSession → AuthSession) :
    (s.accessToken = none →
        (beforeEachPrelude now s stored eff).initCalled = true) ∧
    (∀ t, s.accessToken = some t →
        (beforeEachPrelude now s stored eff).initCalled = false ∧
        (beforeEachPrelude now s stored eff).refreshCalled =
          isTokenExpired now s ∧
        (isTokenExpired now s = true →
            (beforeEachPrelude now s stored eff).session = eff s) ∧
        (isTokenExpired now s = false →
            beforeEachPrelude now s stored eff =
              { initCalled := false, refreshCalled := false,
                session := s })) := by
  constructor
  · intro h
    simp only [beforeEachPrelude, h]
    by_cases hcond : stored.accessToken.isSome ∧ isTokenExpired now stored <;>
      simp [hcond, h]
  · intro t ht
    have hsome : s.accessToken.isNone = false := by simp [ht]
    constructor
    · simp only [beforeEachPrelude, hsome]
      by_cases hcond : s.accessToken.isSome ∧ isTokenExpired now s <;>
        simp [hcond, hsome]
    constructor
    · simp only [beforeEachPrelude, hsome]
      cases hexp : isTokenExpired now s
      · simp [ht, hexp]
      · simp [ht, hexp]
    constructor
    · intro hexp
      simp only [beforeEachPrelude, hsome]
      simp [ht, hexp]
    · intro hexp
      simp only [beforeEachPrelude, hsome]
      simp [ht, hexp]

/-- Witness for C7 at concrete inputs: with a present but expired token
the guard skips hydration and runs the refresh check. -/
theorem guard_prelude_calls_witness :
    (beforeEachPrelude 0 ⟨none, some "t", none, none, none⟩
        ⟨none, none, none, none, none⟩ id).initCalled = false ∧
    (beforeEachPrelude 0 ⟨none, some "t", none, none, none⟩
        ⟨none, none, none, none, none⟩ id).refreshCalled = true :=
  have h := (guard_prelude_calls 0 ⟨none, some "t", none, none, none⟩
      ⟨none, none, none, none, none⟩ id).2 "t" rfl
  ⟨h.1, h.2.1.trans (by decide)⟩

/-- Claim C8: the persistent store adapter never raises — `getItem`
returns the parsed structure when the raw string parses as JSON, the raw
string unchanged when parsing fails, and logs and returns null when the
underlying read throws; `setItem` stores a string as-is, JSON-serializes
every non-string value, and logs and suppresses an underlying write
failure (both functions are total). -/
theorem localStorage_adapter_contract (v : JsVal) (raw : RawText) :
    (∀ w, jsonParse raw = some w →
        getItem (.ok (some raw)) = (some w, false)) ∧
    (jsonParse raw = none →
        getItem (.ok (some raw)) = (some (.vStr raw), false)) ∧
    getItem (.error ()) = (none, true) ∧
    setItem (.vStr raw) false = (some raw, false) ∧
    (v.isStr = false → setItem v false = (some (.jsonText v), false)) ∧
    setItem v true = (none, true) := by
  refine ⟨fun w h => ?_, fun h => ?_, rfl, rfl, fun h => ?_, rfl⟩
  · cases raw with
    | jsonText x =>
        cases h
        rfl
    | plain s => exact absurd h (by simp [jsonParse])
  · cases raw with
    | jsonText x => exact absurd h (by simp [jsonParse])
    | plain s => rfl
  · cases v <;> simp_all [setItem, serializeForStorage, JsVal.isStr]

/-- Witness for C8 at concrete inputs: a stored JSON number is returned
parsed, and a non-string value is serialized before storage. -/
theorem localStorage_adapter_contract_witness :
    getItem (.ok (some (.jsonText (.vNum 5)))) = (some (.vNum 5), false) ∧
    setItem (.vBool true) false = (some (.jsonText (.vBool true)), false) :=
  ⟨(localStorage_adapter_contract .vNull (.jsonText (.vNum 5))).1
      (.vNum 5) rfl,
   (localStorage_adapter_contract (.vBool true) (.plain "x")).2.2.2.2.1 rfl⟩

/-- Claim C9: writing any object, array, boolean or number with `setItem`
and reading it back with `getItem` yields the same value, and a string
that does not parse as JSON comes back unchanged. -/
theorem localStorage_round_trip (v : JsVal) (s : String) :
    (v.isStructured = true →
        getItem (.ok (setItem v false).1) = (some v, false)) ∧
    getItem (.ok (setItem (.vStr (.plain s)) false).1) =
      (some (.vStr (.plain s)), false) := by
  constructor
  · intro h
    cases v <;> simp_all [setItem, serializeForStorage, getItem, jsonParse,
      JsVal.isStructured]
  · rfl

/-- Witness for C9 at a concrete object value: a one-field object written
through the adapter reads back deep-equal. -/
theorem localStorage_round_trip_witness :
    getItem (.ok (setItem (.vObj [("a", .vNum 1)]) false).1) =
      (some (.vObj [("a", .vNum 1)]), false) :=
  (localStorage_round_trip (.vObj [("a", .vNum 1)]) "").1 rfl

/-- Claim C10: a navigation whose destination matches no declared route
resolves to the catch-all route, which carries no requiresAuth meta, so
for an unauthenticated user targeting a path other than the root and the
anonymous-only auth paths the guard lets the navigation proceed with no
redirect. -/
theorem catchAll_proceeds (path : String) :
    declaredMatch path = none →
    path ≠ "/" →
    isAnonAuthPath path = false →
    (matchRoute path).requiresAuthMeta = none ∧
    beforeEachDecision false path (routeRequiresAuth (matchRoute path)) =
      none := by
  intro hmatch hroot hanon
  have hcatch : matchRoute path = catchAllEntry := by
    simp [matchRoute, hmatch]
  refine ⟨by simp [hcatch, catchAllEntry], ?_⟩
  rw [hcatch]
  simp [beforeEachDecision, routeRequiresAuth, catchAllEntry, hroot]

/-- Witness for C10 at a concrete unmatched path. -/
theorem catchAll_proceeds_witness :
    (matchRoute "/no-such-page").requiresAuthMeta = none ∧
    beforeEachDecision false "/no-such-page"
        (routeRequiresAuth (matchRoute "/no-such-page")) = none :=
  catchAll_proceeds "/no-such-page" (by decide) (by decide) (by decide)
